import Mathlib

/-!
Verification of the NVMe/TCP host transport (`src/lib/nvme/nvme_nvda_tcp.c`)
and the RDMA memory-translation utility (`src/lib/rdma_utils/rdma_utils.c`).

Each definition below is a shallow embedding of one function (or the relevant
slice of one function) of the C source; the theorems settle the claims of the
specification against these embeddings.  Machine integers are modelled as
`Nat`; C booleans and single-bit fields as `Bool`; fallible paths return an
explicit error value, mirroring the C return codes.
-/

set_option linter.unusedVariables false

/-- Fatal-error-status codes carried by TERM_REQ PDUs
(enum `spdk_nvme_tcp_term_req_fes`). -/
inductive Fes where
  | invalidHeaderField
  | pduSequenceError
  | hdgstError
  | dataTransferOutOfRange
  | r2tLimitExceeded
  | invalidDataUnsupportedParameter
  deriving DecidableEq, Repr

/-- NVMe generic command status codes used by the transport
(`SPDK_NVME_SC_*`). -/
inductive ScCode where
  | success
  | abortedSqDeletion
  | internalDeviceError
  | commandTransientTransportError
  | other (code : Nat)
  deriving DecidableEq, Repr

/-- Qpair lifecycle states (enum `nvme_tcp_qpair_state`), restricted to the
values the modelled code touches. -/
inductive NvmeTcpQpairState where
  | invalid
  | initializing
  | fabricConnectSend
  | fabricConnectPoll
  | running
  | exiting
  deriving DecidableEq, Repr

/-- PDU receive state machine states (enum `nvme_tcp_pdu_recv_state`). -/
inductive NvmeTcpPduRecvState where
  | awaitPduReady
  | awaitPduCh
  | awaitPduPsh
  | awaitPduPayload
  | quiescing
  | error
  deriving DecidableEq, Repr

def SPDK_NVME_TCP_DIGEST_LEN : Nat := 4

def NVME_TCP_PDU_H2C_MIN_DATA_SIZE : Nat := 4096

def SPDK_NVME_TCP_CPDA_MAX : Nat := 31

def SPDK_NVME_TCP_IN_CAPSULE_DATA_MAX_SIZE : Nat := 8192

def SPDK_NVME_TCP_TERM_REQ_ERROR_DATA_MAX_SIZE : Nat := 152

def NVME_TCP_MAX_R2T_DEFAULT : Nat := 1

/-- Byte size of `struct spdk_nvme_tcp_cmd` (8-byte common header + 64-byte
SQE), i.e. the `hlen` of a CAPSULE_CMD PDU. -/
def sizeof_spdk_nvme_tcp_cmd : Nat := 72

/-- Byte size of `struct spdk_nvme_tcp_h2c_data_hdr` (8-byte common header +
cccid/ttag/datao/datal/rsvd), i.e. the `hlen` of an H2C_DATA PDU. -/
def sizeof_spdk_nvme_tcp_h2c_data_hdr : Nat := 24

/-- Byte size of `struct spdk_nvme_tcp_term_req_hdr`. -/
def sizeof_spdk_nvme_tcp_term_req_hdr : Nat := 24

/-- Field offsets inside `struct spdk_nvme_tcp_ic_resp`, per the wire layout
(8-byte common header, then u16 pfv, u8 cpda, u8 digest, u32 maxh2cdata). -/
def ic_resp_offsetof_pfv : Nat := 8

def ic_resp_offsetof_cpda : Nat := 10

def ic_resp_offsetof_maxh2cdata : Nat := 12

/-- Offset of the embedded CQE (`rccqe`) inside `struct spdk_nvme_tcp_rsp`. -/
def tcp_rsp_offsetof_rccqe : Nat := 8

/-- Offset of `cccid` inside `struct spdk_nvme_tcp_c2h_data_hdr`. -/
def c2h_data_hdr_offsetof_cccid : Nat := 8

/-- Offset of `cccid` inside `struct spdk_nvme_tcp_r2t_hdr`. -/
def r2t_hdr_offsetof_cccid : Nat := 8

/-! ## IC_RESP handling (`nvme_tcp_icresp_handle`, lines 2125-2196) -/

/-- The fields of a received IC_RESP PDU the handler reads. -/
structure IcResp where
  pfv : Nat
  cpda : Nat
  maxh2cdata : Nat
  hdgst_enable : Bool
  ddgst_enable : Bool
  deriving DecidableEq, Repr

/-- Result of `nvme_tcp_icresp_handle`: either an H2C_TERM_REQ with a fes and
an error offset, or the negotiated values adopted into the qpair together with
the next qpair state. -/
inductive IcrespResult where
  | term (fes : Fes) (error_offset : Nat)
  | ok (maxh2cdata : Nat) (cpda : Nat) (host_hdgst_enable : Bool)
       (host_ddgst_enable : Bool) (state : NvmeTcpQpairState)
  deriving DecidableEq, Repr

/-- Shallow embedding of `nvme_tcp_icresp_handle` (validation, adoption and
state transition; the receive-buffer resize has no effect on the modelled
state). -/
def nvme_tcp_icresp_handle (ic : IcResp) (icreq_send_ack : Bool) : IcrespResult :=
  if ic.pfv ≠ 0 then
    .term .invalidHeaderField ic_resp_offsetof_pfv
  else if ic.maxh2cdata < NVME_TCP_PDU_H2C_MIN_DATA_SIZE then
    .term .invalidHeaderField ic_resp_offsetof_maxh2cdata
  else if ic.cpda > SPDK_NVME_TCP_CPDA_MAX then
    .term .invalidHeaderField ic_resp_offsetof_cpda
  else
    .ok ic.maxh2cdata ic.cpda ic.hdgst_enable ic.ddgst_enable
      (if icreq_send_ack then .fabricConnectSend else .initializing)

/-! ## SGL build (`nvme_tcp_req_build`, lines 818-871) -/

inductive SglDescriptorType where
  | dataBlock
  | transportDataBlock
  deriving DecidableEq, Repr

inductive SglSubtype where
  | offset
  | transport
  deriving DecidableEq, Repr

/-- The SGL descriptor fields and the in-capsule flag that
`nvme_tcp_req_build` produces. -/
structure SglBuildResult where
  sgl_type : SglDescriptorType
  subtype : SglSubtype
  address : Nat
  length : Nat
  in_capsule_data : Bool
  deriving DecidableEq, Repr

/-- Shallow embedding of the descriptor-selection tail of
`nvme_tcp_req_build` (after the iov build succeeded).  `is_h2c` is
`xfer == SPDK_NVME_DATA_HOST_TO_CONTROLLER`; `is_fabric`/`is_admin` select
the 8192-byte in-capsule limit. -/
def nvme_tcp_req_build (payload_size ioccsz_bytes : Nat)
    (is_h2c is_fabric is_admin : Bool) : SglBuildResult :=
  let base : SglBuildResult :=
    { sgl_type := .transportDataBlock, subtype := .transport,
      address := 0, length := payload_size, in_capsule_data := false }
  if is_h2c then
    let max_in_capsule_data_size :=
      if is_fabric || is_admin then SPDK_NVME_TCP_IN_CAPSULE_DATA_MAX_SIZE
      else ioccsz_bytes
    if payload_size ≤ max_in_capsule_data_size then
      { base with sgl_type := .dataBlock, subtype := .offset,
                  address := 0, in_capsule_data := true }
    else base
  else base

/-- The in-capsule limit used by `nvme_tcp_req_build`. -/
def nvme_tcp_in_capsule_limit (ioccsz_bytes : Nat) (is_fabric is_admin : Bool) : Nat :=
  if is_fabric || is_admin then SPDK_NVME_TCP_IN_CAPSULE_DATA_MAX_SIZE else ioccsz_bytes

/-! ## PDU layout: pdo and padding
(`nvme_tcp_qpair_capsule_cmd_send` lines 1196-1248,
`nvme_tcp_send_h2c_data` lines 2536-2568) -/

/-- The PDU-layout fields produced by the send-path builders. -/
structure PduLayout where
  pdo : Nat
  padding_len : Nat
  plen : Nat
  plen_before_data : Nat
  deriving DecidableEq, Repr

/-- Common pdo/padding arithmetic of both builders: starting from the length
of everything before the data (`hlen` plus the optional header digest), pad up
to `(cpda+1)<<2` only when that alignment exceeds this length. -/
def nvme_tcp_pdu_align (cpda plen0 : Nat) : Nat × Nat :=
  if cpda ≠ 0 then
    let alignment := (cpda + 1) * 4
    if alignment > plen0 then (alignment, alignment - plen0) else (plen0, 0)
  else (plen0, 0)

/-- Shallow embedding of the layout computation of
`nvme_tcp_qpair_capsule_cmd_send` for a command that carries in-capsule data
(`payload_size > 0 && in_capsule_data`). -/
def nvme_tcp_qpair_capsule_cmd_send_layout (host_hdgst_enable host_ddgst_enable : Bool)
    (cpda payload_size : Nat) : PduLayout :=
  let plen0 := sizeof_spdk_nvme_tcp_cmd +
    (if host_hdgst_enable then SPDK_NVME_TCP_DIGEST_LEN else 0)
  let (pdo, padding) := nvme_tcp_pdu_align cpda plen0
  let plen1 := if padding = 0 then plen0 else pdo
  let plen2 := plen1 + payload_size
  let plen3 := plen2 + (if host_ddgst_enable then SPDK_NVME_TCP_DIGEST_LEN else 0)
  { pdo := pdo, padding_len := padding, plen := plen3, plen_before_data := plen0 }

/-- Shallow embedding of the layout computation of `nvme_tcp_send_h2c_data`
(`datal = min(r2tl_remain, maxh2cdata)`). -/
def nvme_tcp_send_h2c_data_layout (host_hdgst_enable host_ddgst_enable : Bool)
    (cpda r2tl_remain maxh2cdata : Nat) : PduLayout :=
  let plen0 := sizeof_spdk_nvme_tcp_h2c_data_hdr +
    (if host_hdgst_enable then SPDK_NVME_TCP_DIGEST_LEN else 0)
  let datal := min r2tl_remain maxh2cdata
  let (pdo, padding) := nvme_tcp_pdu_align cpda plen0
  let plen1 := if padding = 0 then plen0 else pdo
  let plen2 := plen1 + datal
  let plen3 := plen2 + (if host_ddgst_enable then SPDK_NVME_TCP_DIGEST_LEN else 0)
  { pdo := pdo, padding_len := padding, plen := plen3, plen_before_data := plen0 }

/-- Modelled from the spec: `nvme_tcp_build_iovs`
(`spdk_internal/nvme_nvda_tcp.h`) is not under `src/`; per the spec the bytes
between the end of the header (plus header digest) and `pdo` are transmitted
from the zero-initialized padding region of the PDU (the H2C PDU is
`memset` to zero in `nvme_tcp_send_h2c_data` before the header is filled in). -/
def nvme_tcp_pdu_padding_bytes (padding_len : Nat) : List Nat :=
  List.replicate padding_len 0

/-- Rounding up to a multiple: the `ceil(a, b)` of the specification text. -/
def ceilMult (a b : Nat) : Nat := ((a + b - 1) / b) * b

/-! ## Memory translation (`spdk_rdma_utils_get_translation`,
`src/lib/rdma_utils/rdma_utils.c` lines 193-219) -/

/-- A registered memory map.  `spdk_mem_map_translate` is part of the
process-wide environment layer, not under `src/`; it is modelled abstractly as
a function from an address to the translation value stored for the region
containing the address (0 encodes the NULL `ibv_mr`) together with the number
of contiguous registered bytes from that address (the updated
`real_length`). -/
structure RdmaUtilsMemMap where
  has_get_rkey : Bool
  translate : Nat → Nat × Nat
  deriving Inhabited

inductive RdmaUtilsTranslationType where
  | mr
  | key
  deriving DecidableEq, Repr

structure RdmaUtilsMemoryTranslation where
  translation_type : RdmaUtilsTranslationType
  mr_or_key : Nat
  deriving DecidableEq, Repr

/-- Shallow embedding of `spdk_rdma_utils_get_translation`: returns the C
return code (0 or -EINVAL = -22) and the translation record.  Note the
covered length returned by the map is never compared against `length` on any
return path; it is only the subject of the trailing `assert`. -/
def spdk_rdma_utils_get_translation (map : RdmaUtilsMemMap) (address length : Nat) :
    Int × RdmaUtilsMemoryTranslation :=
  let (value, _covered) := map.translate address
  if map.has_get_rkey then
    (0, { translation_type := .key, mr_or_key := value })
  else if value = 0 then
    (-22, { translation_type := .mr, mr_or_key := 0 })
  else
    (0, { translation_type := .mr, mr_or_key := value })

/-- The condition of the `assert(real_length >= length)` at the end of
`spdk_rdma_utils_get_translation`. -/
def spdk_rdma_utils_get_translation_assert (map : RdmaUtilsMemMap)
    (address length : Nat) : Prop :=
  (map.translate address).2 ≥ length

/-! ## CID lookup (`get_nvme_active_req_by_cid`, lines 1764-1773) and the
lookup-failure paths of the per-type header handlers -/

/-- The request-lookup view of a qpair: `tcp_reqs_lookup` is an array of
`num_entries` request slots. -/
structure CidLookupQpair where
  num_entries : Nat
  tcp_reqs_lookup : List (Option Nat)
  entries_len : tcp_reqs_lookup.length = num_entries

/-- Shallow embedding of `get_nvme_active_req_by_cid`: a cid at or beyond
`num_entries` is rejected before the table is indexed. -/
def get_nvme_active_req_by_cid (q : CidLookupQpair) (cid : Nat) : Option Nat :=
  if cid ≥ q.num_entries then none
  else (q.tcp_reqs_lookup.getD cid none)

/-- Outcome of a per-type header handler restricted to the CID-lookup step. -/
inductive CidDispatch where
  | term (fes : Fes) (error_offset : Nat)
  | found (req : Nat)
  deriving DecidableEq, Repr

/-- The CID-lookup head of `nvme_tcp_capsule_resp_hdr_handle`
(lines 2198-2232). -/
def nvme_tcp_capsule_resp_hdr_handle_lookup (q : CidLookupQpair) (cid : Nat) :
    CidDispatch :=
  match get_nvme_active_req_by_cid q cid with
  | none => .term .invalidHeaderField tcp_rsp_offsetof_rccqe
  | some r => .found r

/-- The CID-lookup head of `nvme_tcp_c2h_data_hdr_handle`
(lines 2258-2277). -/
def nvme_tcp_c2h_data_hdr_handle_lookup (q : CidLookupQpair) (cid : Nat) :
    CidDispatch :=
  match get_nvme_active_req_by_cid q cid with
  | none => .term .invalidHeaderField c2h_data_hdr_offsetof_cccid
  | some r => .found r

/-- The CID-lookup head of `nvme_tcp_r2t_hdr_handle` (lines 2630-2646). -/
def nvme_tcp_r2t_hdr_handle_lookup (q : CidLookupQpair) (cid : Nat) :
    CidDispatch :=
  match get_nvme_active_req_by_cid q cid with
  | none => .term .invalidHeaderField r2t_hdr_offsetof_cccid
  | some r => .found r

/-! ## Completion ordering (`nvme_tcp_req_complete_safe` lines 1024-1042,
`_nvme_tcp_req_complete` lines 1379-1407,
`nvme_tcp_qpair_cmd_send_complete` lines 1044-1059,
`nvme_tcp_capsule_resp_hdr_handle` lines 2198-2232,
`nvme_tcp_c2h_data_payload_handle` lines 1791-1806)

The completion-relevant view of one request: the ordering bits, whether the
CID lookup slot still maps to the request (`active`), whether the payload is
zero-copy, and a ghost counter of user completion-callback invocations.
`_nvme_tcp_req_complete` calls `nvme_tcp_req_put` — which clears
`tcp_reqs_lookup[cid]` — only for non-zero-copy payloads (lines 1400-1405);
a zero-copy request keeps its lookup slot until
`nvme_tcp_qpair_free_request` releases it (line 1347). -/

structure C1Req where
  active : Bool
  is_zcopy : Bool
  send_ack : Bool
  data_recv : Bool
  h2c_send_waiting_ack : Bool
  completions : Nat
  deriving DecidableEq, Repr

/-- Shallow embedding of `nvme_tcp_req_complete_safe`: fires the user
completion callback (through `nvme_tcp_req_complete` and
`_nvme_tcp_req_complete`, which removes the request from the outstanding
list) only when both ordering bits are set.  For a non-zero-copy payload
`_nvme_tcp_req_complete` also releases the request via `nvme_tcp_req_put`,
clearing its CID lookup slot; for a zero-copy payload it invokes
`nvme_complete_request_zcopy` and the slot stays mapped (lines 1400-1405).
Returns the updated request and whether the completion fired. -/
def nvme_tcp_req_complete_safe (r : C1Req) : C1Req × Bool :=
  if r.send_ack && r.data_recv then
    (if r.is_zcopy then { r with completions := r.completions + 1 }
     else { r with active := false, completions := r.completions + 1 }, true)
  else
    (r, false)

/-- Shallow embedding of `nvme_tcp_qpair_cmd_send_complete`: sets `send_ack`;
if an H2C send is waiting for this ack it starts `nvme_tcp_send_h2c_data`
(whose only effect on the ordering bits is to clear `send_ack` and
`h2c_send_waiting_ack`, lines 2528-2529), otherwise it tries to complete. -/
def nvme_tcp_qpair_cmd_send_complete (r : C1Req) : C1Req :=
  let r := { r with send_ack := true }
  if r.h2c_send_waiting_ack then
    { r with send_ack := false, h2c_send_waiting_ack := false }
  else
    (nvme_tcp_req_complete_safe r).1

/-- The request-side effect of `nvme_tcp_capsule_resp_hdr_handle` when a
CAPSULE_RESP carrying the request's CID arrives: `get_nvme_active_req_by_cid`
consults the lookup slot (modelled by `active`) — when it still maps the
request (always, for a completed zero-copy request not yet freed) the handler
copies the CQE, sets `data_recv` and tries to complete; when the slot is
clear the request is untouched (the qpair answers with an H2C_TERM_REQ). -/
def nvme_tcp_capsule_resp_on_req (r : C1Req) : C1Req :=
  if r.active then
    (nvme_tcp_req_complete_safe { r with data_recv := true }).1
  else r

/-- The request-side effect of `nvme_tcp_c2h_data_payload_handle` for a
C2H_DATA PDU carrying LAST_PDU|SUCCESS whose CID lookup consulted the
request's slot: set `data_recv`, try to complete. -/
def nvme_tcp_c2h_data_last_success_on_req (r : C1Req) : C1Req :=
  if r.active then
    (nvme_tcp_req_complete_safe { r with data_recv := true }).1
  else r

/-- The completion-relevant events one request can observe on the non-R2T
path: the socket's send-completion callback for its CAPSULE_CMD, a received
CAPSULE_RESP with its CID, or a received C2H_DATA with LAST_PDU|SUCCESS. -/
inductive C1Event where
  | cmdSendComplete
  | capsuleResp
  | c2hDataLastSuccess
  deriving DecidableEq, Repr

def c1_step (r : C1Req) (e : C1Event) : C1Req :=
  match e with
  | .cmdSendComplete => nvme_tcp_qpair_cmd_send_complete r
  | .capsuleResp => nvme_tcp_capsule_resp_on_req r
  | .c2hDataLastSuccess => nvme_tcp_c2h_data_last_success_on_req r

def c1_run (r : C1Req) (t : List C1Event) : C1Req :=
  t.foldl c1_step r

inductive NvmeTcpReqState where
  | free
  | active
  | activeR2T
  deriving DecidableEq, Repr

/-- The R2T-relevant fields of a request. -/
structure R2TReq where
  state : NvmeTcpReqState
  datao : Nat
  r2tl_remain : Nat
  active_r2ts : Nat
  ttag : Nat
  ttag_r2t_next : Nat
  r2tl_remain_next : Nat
  payload_size : Nat
  send_ack : Bool
  h2c_send_waiting_ack : Bool
  r2t_waiting_h2c_complete : Bool
  deriving DecidableEq, Repr

/-- What the R2T machinery did in one step, observable on the wire or in the
ordering bits. -/
inductive R2TAction where
  | sentH2cData
  | waitingAck
  | parkedR2T
  | termReq (fes : Fes) (error_offset : Nat)
  | completedSafe
  deriving DecidableEq, Repr

/-- Shallow embedding of `nvme_tcp_send_h2c_data` restricted to its effect on
the request's R2T bookkeeping (the PDU layout it builds is
`nvme_tcp_send_h2c_data_layout`): clear `send_ack` and
`h2c_send_waiting_ack`, send `datal = min(r2tl_remain, maxh2cdata)` bytes,
advance `datao`, decrement `r2tl_remain`. -/
def nvme_tcp_send_h2c_data (maxh2cdata : Nat) (r : R2TReq) : R2TReq :=
  let r := { r with send_ack := false, h2c_send_waiting_ack := false }
  let datal := min r.r2tl_remain maxh2cdata
  { r with r2tl_remain := r.r2tl_remain - datal, datao := r.datao + datal }

/-- Shallow embedding of `nvme_tcp_r2t_hdr_handle` after a successful CID
lookup, fed with the received `ttag`, `r2to` and `r2tl` fields. -/
def nvme_tcp_r2t_hdr_handle (maxr2t maxh2cdata : Nat) (r : R2TReq)
    (ttag r2to r2tl : Nat) : R2TReq × R2TAction :=
  let r := if r.state = .active then { r with state := .activeR2T } else r
  if r.datao ≠ r2to then
    (r, .termReq .invalidHeaderField 12)
  else if r2tl + r2to > r.payload_size then
    (r, .termReq .dataTransferOutOfRange 16)
  else
    let r := { r with active_r2ts := r.active_r2ts + 1 }
    if r.active_r2ts > maxr2t then
      if r.state = .activeR2T ∧ r.send_ack = false then
        ({ r with ttag_r2t_next := ttag, r2tl_remain_next := r2tl,
                  r2t_waiting_h2c_complete := true }, .parkedR2T)
      else
        (r, .termReq .r2tLimitExceeded 0)
    else
      let r := { r with ttag := ttag, r2tl_remain := r2tl }
      if r.send_ack then
        (nvme_tcp_send_h2c_data maxh2cdata r, .sentH2cData)
      else
        ({ r with h2c_send_waiting_ack := true }, .waitingAck)

/-- The condition of the `assert(tcp_req->active_r2ts == tqpair->maxr2t + 1)`
inside the subsequent-R2T branch of `nvme_tcp_r2t_hdr_handle` (line 2676),
stated of the post-increment request. -/
def nvme_tcp_r2t_park_assert (maxr2t : Nat) (r : R2TReq) : Prop :=
  r.active_r2ts = maxr2t + 1

/-- Shallow embedding of `nvme_tcp_qpair_h2c_data_send_complete`: on the ack
of an H2C_DATA send, either continue the current R2T, or retire it and, if a
subsequent R2T was parked, resume it with the stored `ttag_r2t_next` /
`r2tl_remain_next`. -/
def nvme_tcp_qpair_h2c_data_send_complete (maxh2cdata : Nat) (r : R2TReq) :
    R2TReq × R2TAction :=
  let r := { r with send_ack := true }
  if r.r2tl_remain ≠ 0 then
    (nvme_tcp_send_h2c_data maxh2cdata r, .sentH2cData)
  else
    let r := { r with active_r2ts := r.active_r2ts - 1, state := .active }
    if r.r2t_waiting_h2c_complete then
      let r := { r with r2t_waiting_h2c_complete := false,
                        ttag := r.ttag_r2t_next,
                        r2tl_remain := r.r2tl_remain_next,
                        state := .activeR2T }
      (nvme_tcp_send_h2c_data maxh2cdata r, .sentH2cData)
    else
      (r, .completedSafe)

/-! ## H2C_TERM_REQ emission and request aborting
(`nvme_tcp_qpair_send_h2c_term_req` lines 1624-1657,
`nvme_tcp_pdu_psh_handle` lines 2707-2758,
`nvme_tcp_qpair_abort_reqs` lines 1592-1614,
`nvme_tcp_req_accel_seq_complete_cb` lines 1409-1445) -/

/-- The H2C_TERM_REQ PDU as built by `nvme_tcp_qpair_send_h2c_term_req` from
a zeroed send PDU.  `offending_hlen` is the `hlen` of the PDU being
rejected. -/
structure TermReqPdu where
  pdu_type : Nat
  hlen : Nat
  plen : Nat
  fes : Fes
  fei : Nat
  deriving DecidableEq, Repr

def SPDK_NVME_TCP_PDU_TYPE_H2C_TERM_REQ : Nat := 2

/-- Shallow embedding of `nvme_tcp_qpair_send_h2c_term_req`: builds the
TERM_REQ PDU (the `fei` field of the zeroed PDU is written only for the two
fes values that carry a field offset) and moves the receive state machine to
QUIESCING before queueing the send. -/
def nvme_tcp_qpair_send_h2c_term_req (offending_hlen : Nat) (fes : Fes)
    (error_offset : Nat) : TermReqPdu × NvmeTcpPduRecvState :=
  let copy_len := min offending_hlen SPDK_NVME_TCP_TERM_REQ_ERROR_DATA_MAX_SIZE
  let fei := if fes = .invalidHeaderField ∨ fes = .invalidDataUnsupportedParameter
             then error_offset else 0
  ({ pdu_type := SPDK_NVME_TCP_PDU_TYPE_H2C_TERM_REQ,
     hlen := sizeof_spdk_nvme_tcp_term_req_hdr,
     plen := sizeof_spdk_nvme_tcp_term_req_hdr + copy_len,
     fes := fes, fei := fei },
   .quiescing)

/-- Shallow embedding of the header-digest check at the top of
`nvme_tcp_pdu_psh_handle`: when the PDU carries a header digest that does not
match the CRC32C of its header (`MATCH_DIGEST_WORD` fails), an H2C_TERM_REQ
with `FES_HDGST_ERROR` is sent and the handler returns; otherwise dispatch
proceeds. -/
def nvme_tcp_pdu_psh_handle_hdgst (has_hdgst hdgst_matches : Bool)
    (offending_hlen : Nat) : Option (TermReqPdu × NvmeTcpPduRecvState) :=
  if has_hdgst && !hdgst_matches then
    some (nvme_tcp_qpair_send_h2c_term_req offending_hlen .hdgstError 0)
  else
    none

/-- The abort-relevant view of an outstanding request. -/
structure AbortReq where
  in_progress_accel : Bool
  rsp_sc : ScCode
  rsp_sct : Nat
  rsp_dnr : Nat
  deriving DecidableEq, Repr

def SPDK_NVME_SCT_GENERIC : Nat := 0

/-- Shallow embedding of `nvme_tcp_qpair_abort_reqs`: every outstanding
request that is not inside an accelerator sequence is completed with
ABORTED_SQ_DELETION; requests with `in_progress_accel` are skipped (they
complete from their accel callback). -/
def nvme_tcp_qpair_abort_reqs (dnr : Nat) (outstanding : List AbortReq) :
    List (AbortReq × Option ScCode) :=
  outstanding.map fun r =>
    if r.in_progress_accel then (r, none)
    else
      ({ r with rsp_sc := .abortedSqDeletion, rsp_sct := SPDK_NVME_SCT_GENERIC,
                rsp_dnr := dnr },
       some ScCode.abortedSqDeletion)

/-- The status chosen by `nvme_tcp_req_accel_seq_complete_cb` when the accel
sequence of a request finishes: a failed sequence yields
INTERNAL_DEVICE_ERROR; a sequence finishing while the qpair is QUIESCING or
no longer connected yields ABORTED_SQ_DELETION; otherwise the stored response
stands. -/
def nvme_tcp_req_accel_seq_complete_cb (status : Int)
    (recv_state : NvmeTcpPduRecvState) (connected : Bool) (rsp_sc : ScCode) :
    ScCode :=
  if status ≠ 0 then .internalDeviceError
  else if recv_state = .quiescing ∨ ¬connected then .abortedSqDeletion
  else rsp_sc

/-! ## Payload handling with data digest
(`nvme_tcp_pdu_payload_handle` lines 2032-2108,
`_nvme_tcp_pdu_payload_handle` lines 1839-1862,
`nvme_tcp_c2h_data_payload_handle` lines 1775-1807) -/

/-- The per-request fields read and written while handling the payload of a
C2H_DATA PDU. -/
structure C7Req where
  expected_datao : Nat
  datao : Nat
  payload_size : Nat
  rsp_sc : ScCode
  rsp_p : Bool
  rsp_cid : Nat
  rsp_sqid : Nat
  cid : Nat
  send_ack : Bool
  data_recv : Bool
  with_memory_domain : Bool
  is_zcopy : Bool
  completions : Nat
  deriving DecidableEq, Repr

/-- The fields of the received C2H_DATA PDU the payload handler reads. -/
structure C7Pdu where
  data_len : Nat
  flags_last_pdu : Bool
  flags_success : Bool
  ddgst_enable : Bool
  /-- Result of comparing the received data digest with the CRC32C of the
  received data area (`MATCH_DIGEST_WORD`). -/
  ddgst_matches : Bool
  deriving DecidableEq, Repr

/-- Environment of the handler: whether the generic qpair state is at least
CONNECTED, whether the qpair runs in a poll group (`tgroup != NULL`) and
whether that group's accel table has `submit_accel_crc32c`. -/
structure C7Env where
  qpair_connected : Bool
  has_tgroup : Bool
  has_submit_accel_crc32c : Bool
  sqid : Nat
  deriving DecidableEq, Repr

/-- Shallow embedding of `nvme_tcp_qpair_set_recv_state`: setting the state
that is already current is refused (logged) and changes nothing. -/
def nvme_tcp_qpair_set_recv_state (cur target : NvmeTcpPduRecvState) :
    NvmeTcpPduRecvState :=
  if cur = target then cur else target

/-- Shallow embedding of `nvme_tcp_c2h_data_payload_handle`: advance `datao`,
fix the phase bit and the response ids on LAST_PDU, and on SUCCESS set
`data_recv` and try to complete in place. -/
def nvme_tcp_c2h_data_payload_handle (env : C7Env) (pdu : C7Pdu) (r : C7Req) :
    C7Req × Nat :=
  let r := { r with datao := r.datao + pdu.data_len }
  if pdu.flags_last_pdu then
    let r := { r with rsp_p := ¬(r.datao = r.payload_size),
                      rsp_cid := r.cid, rsp_sqid := env.sqid }
    if pdu.flags_success then
      let r := { r with data_recv := true }
      if r.send_ack && r.data_recv then
        ({ r with completions := r.completions + 1 }, 1)
      else (r, 0)
    else (r, 0)
  else (r, 0)

/-- What `nvme_tcp_pdu_payload_handle` did: completed synchronously, or
handed the digest check to one of the two offload paths. -/
inductive C7Action where
  | handledSync
  | offloadAccelSeq
  | offloadSubmitCrc32c
  deriving DecidableEq, Repr

/-- Result of the payload handler on a C2H_DATA PDU: the updated request, the
next receive state, the number of reaped completions, whether an H2C_TERM_REQ
was emitted (never, on this path), and which path ran. -/
structure C7Result where
  req : C7Req
  recv_state : NvmeTcpPduRecvState
  reaped : Nat
  term_req_sent : Bool
  action : C7Action
  deriving DecidableEq, Repr

/-- Shallow embedding of `nvme_tcp_pdu_payload_handle` for a C2H_DATA PDU
whose request was found (`pdu->req != NULL`), entered in state
AWAIT_PDU_PAYLOAD. -/
def nvme_tcp_pdu_payload_handle (env : C7Env) (pdu : C7Pdu) (r : C7Req) :
    C7Result :=
  let r := { r with expected_datao := r.expected_datao + pdu.data_len }
  let st := NvmeTcpPduRecvState.awaitPduPayload
  if pdu.ddgst_enable then
    let offloadable := env.qpair_connected && env.has_tgroup &&
      decide (pdu.data_len % SPDK_NVME_TCP_DIGEST_LEN = 0) &&
      decide (r.payload_size = pdu.data_len) && !r.is_zcopy
    if offloadable && r.with_memory_domain then
      { req := r, recv_state := nvme_tcp_qpair_set_recv_state st .awaitPduReady,
        reaped := 0, term_req_sent := false, action := .offloadAccelSeq }
    else if offloadable && env.has_submit_accel_crc32c then
      { req := r, recv_state := nvme_tcp_qpair_set_recv_state st .awaitPduReady,
        reaped := 0, term_req_sent := false, action := .offloadSubmitCrc32c }
    else
      let st := if offloadable then nvme_tcp_qpair_set_recv_state st .awaitPduReady
                else st
      let r := if !pdu.ddgst_matches
               then { r with rsp_sc := .commandTransientTransportError }
               else r
      let (r, reaped) := nvme_tcp_c2h_data_payload_handle env pdu r
      { req := r, recv_state := nvme_tcp_qpair_set_recv_state st .awaitPduReady,
        reaped := reaped, term_req_sent := false, action := .handledSync }
  else
    let (r, reaped) := nvme_tcp_c2h_data_payload_handle env pdu r
    { req := r, recv_state := nvme_tcp_qpair_set_recv_state st .awaitPduReady,
      reaped := reaped, term_req_sent := false, action := .handledSync }

/-- The payload handler lifted to the qpair's request table: the C function
reaches other requests only through `pdu->req`, so only the slot of the
request the PDU belongs to can change. -/
def nvme_tcp_pdu_payload_handle_on_table (env : C7Env) (pdu : C7Pdu)
    (reqs : Nat → Option C7Req) (cid : Nat) : Nat → Option C7Req :=
  fun c =>
    if c = cid then (reqs cid).map fun r => (nvme_tcp_pdu_payload_handle env pdu r).req
    else reqs c

/-! ## Zero-copy request free (`nvme_tcp_qpair_free_request`,
lines 1330-1371) -/

/-- The qpair state touched by `nvme_tcp_qpair_free_request`.  The lookup
table maps a CID to the socket-buffer chain of the active request holding it
(`none` when no active request has that CID). -/
structure FreeReqQpair where
  tcp_reqs_lookup : Nat → Option Nat
  async_complete : Nat
  needs_poll : Bool
  has_poll_group : Bool
  queued_req_nonempty : Bool

/-- Shallow embedding of `nvme_tcp_qpair_free_request`: frees the socket
buffers and releases the request when the CID still maps to an active
request, else returns -EINVAL; in both cases it then (possibly) inserts the
qpair into the poll group's `needs_poll` list and increments
`async_complete`. -/
def nvme_tcp_qpair_free_request (q : FreeReqQpair) (cid : Nat) :
    FreeReqQpair × Int :=
  let (q, rc) :=
    match q.tcp_reqs_lookup cid with
    | some _ =>
      ({ q with tcp_reqs_lookup := fun c => if c = cid then none
                                            else q.tcp_reqs_lookup c }, (0 : Int))
    | none => (q, (-22 : Int))
  let q :=
    if q.has_poll_group ∧ q.queued_req_nonempty ∧ ¬q.needs_poll then
      { q with needs_poll := true }
    else q
  ({ q with async_complete := q.async_complete + 1 }, rc)

/-! # Theorems -/

/-- C3: on IC_RESP the qpair validates `pfv == 0`, `maxh2cdata ≥ 4096` and
`cpda ≤ SPDK_NVME_TCP_CPDA_MAX`, answering an H2C_TERM_REQ with
INVALID_HEADER_FIELD and the offending field's offset on failure; on success
it adopts `maxh2cdata`, `cpda` and the negotiated digest flags and moves to
FABRIC_CONNECT_SEND when the icreq send was already ACKed, else to
INITIALIZING. -/
theorem nvme_tcp_icresp_handle_spec (ic : IcResp) (ack : Bool) :
    (ic.pfv ≠ 0 →
      nvme_tcp_icresp_handle ic ack = .term .invalidHeaderField ic_resp_offsetof_pfv) ∧
    (ic.pfv = 0 → ic.maxh2cdata < NVME_TCP_PDU_H2C_MIN_DATA_SIZE →
      nvme_tcp_icresp_handle ic ack = .term .invalidHeaderField ic_resp_offsetof_maxh2cdata) ∧
    (ic.pfv = 0 → NVME_TCP_PDU_H2C_MIN_DATA_SIZE ≤ ic.maxh2cdata →
      SPDK_NVME_TCP_CPDA_MAX < ic.cpda →
      nvme_tcp_icresp_handle ic ack = .term .invalidHeaderField ic_resp_offsetof_cpda) ∧
    (ic.pfv = 0 → NVME_TCP_PDU_H2C_MIN_DATA_SIZE ≤ ic.maxh2cdata →
      ic.cpda ≤ SPDK_NVME_TCP_CPDA_MAX →
      nvme_tcp_icresp_handle ic ack =
        .ok ic.maxh2cdata ic.cpda ic.hdgst_enable ic.ddgst_enable
          (if ack then .fabricConnectSend else .initializing)) := by
  refine ⟨fun h => ?_, fun h1 h2 => ?_, fun h1 h2 h3 => ?_, fun h1 h2 h3 => ?_⟩ <;>
    · unfold nvme_tcp_icresp_handle NVME_TCP_PDU_H2C_MIN_DATA_SIZE
        SPDK_NVME_TCP_CPDA_MAX at *
      split_ifs <;> simp_all <;> omega

/-- C3 witness: a well-formed IC_RESP with the icreq already ACKed is adopted
and moves the qpair to FABRIC_CONNECT_SEND. -/
theorem nvme_tcp_icresp_handle_spec_witness :
    nvme_tcp_icresp_handle ⟨0, 0, 4096, false, true⟩ true =
      .ok 4096 0 false true .fabricConnectSend := by
  simpa using
    (nvme_tcp_icresp_handle_spec ⟨0, 0, 4096, false, true⟩ true).2.2.2 rfl
      (by decide) (by decide)

/-- C4: a host-to-controller request is marked in-capsule (SGL type
DATA_BLOCK with OFFSET subtype) exactly when its payload size is at most the
in-capsule limit (the controller's `ioccsz_bytes`, or 8192 for fabric/admin
commands); a payload exactly at the limit is in-capsule and one byte more
leaves the SGL as TRANSPORT_DATA_BLOCK. -/
theorem nvme_tcp_req_build_in_capsule_iff (payload_size ioccsz_bytes : Nat)
    (is_fabric is_admin : Bool) :
    ((nvme_tcp_req_build payload_size ioccsz_bytes true is_fabric is_admin).sgl_type
        = .dataBlock ∧
     (nvme_tcp_req_build payload_size ioccsz_bytes true is_fabric is_admin).subtype
        = .offset ∧
     (nvme_tcp_req_build payload_size ioccsz_bytes true is_fabric is_admin).in_capsule_data
        = true ↔
      payload_size ≤ nvme_tcp_in_capsule_limit ioccsz_bytes is_fabric is_admin) ∧
    (payload_size = nvme_tcp_in_capsule_limit ioccsz_bytes is_fabric is_admin →
      (nvme_tcp_req_build payload_size ioccsz_bytes true is_fabric is_admin).in_capsule_data
        = true) ∧
    (payload_size = nvme_tcp_in_capsule_limit ioccsz_bytes is_fabric is_admin + 1 →
      (nvme_tcp_req_build payload_size ioccsz_bytes true is_fabric is_admin).sgl_type
        = .transportDataBlock ∧
      (nvme_tcp_req_build payload_size ioccsz_bytes true is_fabric is_admin).in_capsule_data
        = false) := by
  have hb : nvme_tcp_req_build payload_size ioccsz_bytes true is_fabric is_admin =
      if payload_size ≤ nvme_tcp_in_capsule_limit ioccsz_bytes is_fabric is_admin then
        { sgl_type := .dataBlock, subtype := .offset, address := 0,
          length := payload_size, in_capsule_data := true }
      else
        { sgl_type := .transportDataBlock, subtype := .transport, address := 0,
          length := payload_size, in_capsule_data := false } := by
    unfold nvme_tcp_req_build nvme_tcp_in_capsule_limit
    dsimp only
    split_ifs <;> simp_all
  refine ⟨?_, ?_, ?_⟩
  · by_cases hle :
      payload_size ≤ nvme_tcp_in_capsule_limit ioccsz_bytes is_fabric is_admin
    · simp [hb, hle]
    · simp [hb, hle]
  · intro h
    subst h
    simp [hb]
  · intro h
    have hgt : ¬ payload_size ≤ nvme_tcp_in_capsule_limit ioccsz_bytes is_fabric is_admin := by
      omega
    simp [hb, hgt]

/-- C4 witness: at the fabric/admin limit 8192 the payload goes in-capsule;
at 8193 it does not. -/
theorem nvme_tcp_req_build_in_capsule_iff_witness :
    (nvme_tcp_req_build 8192 0 true true false).in_capsule_data = true ∧
    (nvme_tcp_req_build 8193 0 true true false).sgl_type = .transportDataBlock := by
  exact ⟨(nvme_tcp_req_build_in_capsule_iff 8192 0 true false).2.1 (by decide),
         ((nvme_tcp_req_build_in_capsule_iff 8193 0 true false).2.2 (by decide)).1⟩

/-- C10: for CAPSULE_RESP, C2H_DATA and R2T PDUs, a CID at or beyond the
qpair's `num_entries` never reaches the lookup table: the lookup returns no
request and each handler answers with an H2C_TERM_REQ carrying
INVALID_HEADER_FIELD and the offset of the CID-bearing field. -/
theorem get_nvme_active_req_by_cid_bound (q : CidLookupQpair) (cid : Nat)
    (h : q.num_entries ≤ cid) :
    get_nvme_active_req_by_cid q cid = none ∧
    nvme_tcp_capsule_resp_hdr_handle_lookup q cid =
      .term .invalidHeaderField tcp_rsp_offsetof_rccqe ∧
    nvme_tcp_c2h_data_hdr_handle_lookup q cid =
      .term .invalidHeaderField c2h_data_hdr_offsetof_cccid ∧
    nvme_tcp_r2t_hdr_handle_lookup q cid =
      .term .invalidHeaderField r2t_hdr_offsetof_cccid := by
  have hnone : get_nvme_active_req_by_cid q cid = none := by
    unfold get_nvme_active_req_by_cid
    simp [h]
  refine ⟨hnone, ?_, ?_, ?_⟩ <;>
    simp [nvme_tcp_capsule_resp_hdr_handle_lookup,
      nvme_tcp_c2h_data_hdr_handle_lookup, nvme_tcp_r2t_hdr_handle_lookup, hnone]

/-- C10 witness: a qpair with two entries rejects CID 2 on all three
paths. -/
theorem get_nvme_active_req_by_cid_bound_witness :
    get_nvme_active_req_by_cid ⟨2, [none, some 5], rfl⟩ 2 = none ∧
    nvme_tcp_capsule_resp_hdr_handle_lookup ⟨2, [none, some 5], rfl⟩ 2 =
      .term .invalidHeaderField tcp_rsp_offsetof_rccqe :=
  ⟨(get_nvme_active_req_by_cid_bound ⟨2, [none, some 5], rfl⟩ 2 (by decide)).1,
   (get_nvme_active_req_by_cid_bound ⟨2, [none, some 5], rfl⟩ 2 (by decide)).2.1⟩

/-- C9: `spdk_rdma_utils_get_translation` does not report an error when the
registered region covers fewer bytes than requested.  On a map whose region
at the requested address covers only 4 of the 8 requested bytes it returns
success (0) with the region's MR, while the function's own
`assert(real_length >= length)` is violated at this input. -/
theorem spdk_rdma_utils_get_translation_short_coverage_bug :
    (spdk_rdma_utils_get_translation ⟨false, fun _ => (1, 4)⟩ 0 8).1 = 0 ∧
    (spdk_rdma_utils_get_translation ⟨false, fun _ => (1, 4)⟩ 0 8).2 =
      { translation_type := .mr, mr_or_key := 1 } ∧
    ((⟨false, fun _ => (1, 4)⟩ : RdmaUtilsMemMap).translate 0).2 < 8 ∧
    ¬ spdk_rdma_utils_get_translation_assert ⟨false, fun _ => (1, 4)⟩ 0 8 := by
  refine ⟨rfl, rfl, by norm_num, ?_⟩
  unfold spdk_rdma_utils_get_translation_assert
  norm_num

/-- Characterization of the shared pdo/padding arithmetic: the builders pad
only when the alignment exceeds the length before the data. -/
theorem nvme_tcp_pdu_align_spec (cpda p : Nat) :
    (nvme_tcp_pdu_align cpda p).1 =
      (if cpda ≠ 0 ∧ (cpda + 1) * 4 > p then (cpda + 1) * 4 else p) ∧
    (nvme_tcp_pdu_align cpda p).2 = (nvme_tcp_pdu_align cpda p).1 - p := by
  unfold nvme_tcp_pdu_align
  by_cases h0 : cpda = 0
  · subst h0
    simp
  · by_cases h1 : (cpda + 1) * 4 > p
    · simp [h0, h1]
    · simp [h0, h1]

/-- C5 counterexample: with header digest disabled and a negotiated `cpda` of
4 the CAPSULE_CMD builder places the first data byte at offset 72 (the length
before the data), whereas rounding 72 up to a multiple of `(4+1)<<2 = 20`
would give 80: the claimed `pdo = ceil(plen_before_data, (cpda+1)<<2)` is
false. -/
theorem nvme_tcp_capsule_cmd_pdo_not_ceil :
    (nvme_tcp_qpair_capsule_cmd_send_layout false false 4 16).pdo = 72 ∧
    (nvme_tcp_qpair_capsule_cmd_send_layout false false 4 16).plen_before_data = 72 ∧
    ceilMult 72 ((4 + 1) * 4) = 80 ∧
    (nvme_tcp_qpair_capsule_cmd_send_layout false false 4 16).pdo ≠
      ceilMult
        (nvme_tcp_qpair_capsule_cmd_send_layout false false 4 16).plen_before_data
        ((4 + 1) * 4) := by
  refine ⟨rfl, rfl, rfl, by decide⟩

/-- C5 as amended: for CAPSULE_CMD and H2C_DATA PDUs built with data under a
negotiated `cpda = k`, the first data byte is placed at
`pdo = (k+1)<<2` when `k ≠ 0` and that alignment exceeds the length before
the data, and at the unpadded length before the data otherwise; the gap of
`pdo − plen_before_data` bytes is zero-initialized padding. -/
theorem nvme_tcp_pdu_pdo_spec (hd dd : Bool) (cpda payload r2tl maxh2c : Nat) :
    ((nvme_tcp_qpair_capsule_cmd_send_layout hd dd cpda payload).pdo =
      (if cpda ≠ 0 ∧ (cpda + 1) * 4 >
          (nvme_tcp_qpair_capsule_cmd_send_layout hd dd cpda payload).plen_before_data
       then (cpda + 1) * 4
       else (nvme_tcp_qpair_capsule_cmd_send_layout hd dd cpda payload).plen_before_data)) ∧
    ((nvme_tcp_qpair_capsule_cmd_send_layout hd dd cpda payload).padding_len =
      (nvme_tcp_qpair_capsule_cmd_send_layout hd dd cpda payload).pdo -
      (nvme_tcp_qpair_capsule_cmd_send_layout hd dd cpda payload).plen_before_data) ∧
    ((nvme_tcp_send_h2c_data_layout hd dd cpda r2tl maxh2c).pdo =
      (if cpda ≠ 0 ∧ (cpda + 1) * 4 >
          (nvme_tcp_send_h2c_data_layout hd dd cpda r2tl maxh2c).plen_before_data
       then (cpda + 1) * 4
       else (nvme_tcp_send_h2c_data_layout hd dd cpda r2tl maxh2c).plen_before_data)) ∧
    ((nvme_tcp_send_h2c_data_layout hd dd cpda r2tl maxh2c).padding_len =
      (nvme_tcp_send_h2c_data_layout hd dd cpda r2tl maxh2c).pdo -
      (nvme_tcp_send_h2c_data_layout hd dd cpda r2tl maxh2c).plen_before_data) ∧
    (∀ b ∈ nvme_tcp_pdu_padding_bytes
        (nvme_tcp_qpair_capsule_cmd_send_layout hd dd cpda payload).padding_len, b = 0) ∧
    (∀ b ∈ nvme_tcp_pdu_padding_bytes
        (nvme_tcp_send_h2c_data_layout hd dd cpda r2tl maxh2c).padding_len, b = 0) := by
  have hcap : (nvme_tcp_qpair_capsule_cmd_send_layout hd dd cpda payload).pdo =
      (nvme_tcp_pdu_align cpda
        (sizeof_spdk_nvme_tcp_cmd +
          (if hd then SPDK_NVME_TCP_DIGEST_LEN else 0))).1 ∧
      (nvme_tcp_qpair_capsule_cmd_send_layout hd dd cpda payload).padding_len =
      (nvme_tcp_pdu_align cpda
        (sizeof_spdk_nvme_tcp_cmd +
          (if hd then SPDK_NVME_TCP_DIGEST_LEN else 0))).2 ∧
      (nvme_tcp_qpair_capsule_cmd_send_layout hd dd cpda payload).plen_before_data =
      sizeof_spdk_nvme_tcp_cmd + (if hd then SPDK_NVME_TCP_DIGEST_LEN else 0) := by
    unfold nvme_tcp_qpair_capsule_cmd_send_layout
    exact ⟨rfl, rfl, rfl⟩
  have hh2c : (nvme_tcp_send_h2c_data_layout hd dd cpda r2tl maxh2c).pdo =
      (nvme_tcp_pdu_align cpda
        (sizeof_spdk_nvme_tcp_h2c_data_hdr +
          (if hd then SPDK_NVME_TCP_DIGEST_LEN else 0))).1 ∧
      (nvme_tcp_send_h2c_data_layout hd dd cpda r2tl maxh2c).padding_len =
      (nvme_tcp_pdu_align cpda
        (sizeof_spdk_nvme_tcp_h2c_data_hdr +
          (if hd then SPDK_NVME_TCP_DIGEST_LEN else 0))).2 ∧
      (nvme_tcp_send_h2c_data_layout hd dd cpda r2tl maxh2c).plen_before_data =
      sizeof_spdk_nvme_tcp_h2c_data_hdr +
        (if hd then SPDK_NVME_TCP_DIGEST_LEN else 0) := by
    unfold nvme_tcp_send_h2c_data_layout
    exact ⟨rfl, rfl, rfl⟩
  have ha := nvme_tcp_pdu_align_spec cpda
    (sizeof_spdk_nvme_tcp_cmd + (if hd then SPDK_NVME_TCP_DIGEST_LEN else 0))
  have hb := nvme_tcp_pdu_align_spec cpda
    (sizeof_spdk_nvme_tcp_h2c_data_hdr + (if hd then SPDK_NVME_TCP_DIGEST_LEN else 0))
  refine ⟨?_, ?_, ?_, ?_, ?_, ?_⟩
  · rw [hcap.1, hcap.2.2, ha.1]
  · rw [hcap.2.1, hcap.1, hcap.2.2, ha.2]
  · rw [hh2c.1, hh2c.2.2, hb.1]
  · rw [hh2c.2.1, hh2c.1, hh2c.2.2, hb.2]
  · intro b hb'
    exact List.eq_of_mem_replicate hb'
  · intro b hb'
    exact List.eq_of_mem_replicate hb'

/-- C5 amended witness: with header digest enabled and `cpda = 31` the
CAPSULE_CMD data starts at 128 with a 52-byte zero gap. -/
theorem nvme_tcp_pdu_pdo_spec_witness :
    (nvme_tcp_qpair_capsule_cmd_send_layout true false 31 16).pdo = 128 ∧
    (nvme_tcp_qpair_capsule_cmd_send_layout true false 31 16).padding_len = 52 ∧
    (∀ b ∈ nvme_tcp_pdu_padding_bytes 52, b = 0) := by
  have h := nvme_tcp_pdu_pdo_spec true false 31 16 0 0
  refine ⟨?_, ?_, ?_⟩
  · simpa using h.1
  · have := h.2.1
    simpa [h.1] using this
  · intro b hb
    exact h.2.2.2.2.1 b (by simpa [h.1, h.2.1] using hb)

/-- C8 counterexample: calling `nvme_tcp_qpair_free_request` on a CID that no
longer maps to an active request does return -EINVAL, but it does not leave
the qpair state unchanged: the `async_complete` counter is incremented. -/
theorem nvme_tcp_qpair_free_request_not_idempotent :
    (nvme_tcp_qpair_free_request
      { tcp_reqs_lookup := fun _ => none, async_complete := 0,
        needs_poll := false, has_poll_group := false,
        queued_req_nonempty := false } 3).2 = -22 ∧
    (nvme_tcp_qpair_free_request
      { tcp_reqs_lookup := fun _ => none, async_complete := 0,
        needs_poll := false, has_poll_group := false,
        queued_req_nonempty := false } 3).1.async_complete ≠ 0 := by
  refine ⟨rfl, by norm_num [nvme_tcp_qpair_free_request]⟩

/-- C8 as amended: on a CID that no longer maps to an active request,
`nvme_tcp_qpair_free_request` returns -EINVAL and leaves the request lookup
table (and hence the request pool) untouched, but it still increments the
qpair's `async_complete` counter and, when the qpair has queued requests in a
poll group, marks it `needs_poll`. -/
theorem nvme_tcp_qpair_free_request_freed_cid (q : FreeReqQpair) (cid : Nat)
    (h : q.tcp_reqs_lookup cid = none) :
    (nvme_tcp_qpair_free_request q cid).2 = -22 ∧
    (∀ c, (nvme_tcp_qpair_free_request q cid).1.tcp_reqs_lookup c =
      q.tcp_reqs_lookup c) ∧
    (nvme_tcp_qpair_free_request q cid).1.async_complete = q.async_complete + 1 ∧
    ((nvme_tcp_qpair_free_request q cid).1.needs_poll = true ↔
      (q.needs_poll = true ∨
        (q.has_poll_group = true ∧ q.queued_req_nonempty = true))) := by
  unfold nvme_tcp_qpair_free_request
  rw [h]
  dsimp only
  refine ⟨rfl, ?_, ?_, ?_⟩ <;> split_ifs <;> simp_all

/-- C8 amended witness: the freed-CID call on a concrete quiescent qpair. -/
theorem nvme_tcp_qpair_free_request_freed_cid_witness :
    (nvme_tcp_qpair_free_request
      { tcp_reqs_lookup := fun _ => none, async_complete := 5,
        needs_poll := false, has_poll_group := true,
        queued_req_nonempty := true } 0).2 = -22 ∧
    (nvme_tcp_qpair_free_request
      { tcp_reqs_lookup := fun _ => none, async_complete := 5,
        needs_poll := false, has_poll_group := true,
        queued_req_nonempty := true } 0).1.async_complete = 6 := by
  have h := nvme_tcp_qpair_free_request_freed_cid
    { tcp_reqs_lookup := fun _ => none, async_complete := 5,
      needs_poll := false, has_poll_group := true,
      queued_req_nonempty := true } 0 rfl
  exact ⟨h.1, h.2.2.1⟩

/-- C2: with `maxr2t = 1`, after a first R2T whose H2C_DATA is still
unacknowledged, the code parks a second R2T as the claim states (storing its
ttag and r2tl and keeping `active_r2ts = maxr2t + 1`) and resumes it with the
stored values on the ack; but a third R2T arriving in the same window is
parked again — overwriting the stored ttag, driving `active_r2ts` to 3 and
violating the code's own `assert(active_r2ts == maxr2t + 1)` — instead of
producing the H2C_TERM_REQ with R2T_LIMIT_EXCEEDED the claim requires. -/
theorem nvme_tcp_r2t_third_subsequent_parked :
    (nvme_tcp_r2t_hdr_handle 1 4096
      { state := .active, datao := 0, r2tl_remain := 0, active_r2ts := 0,
        ttag := 0, ttag_r2t_next := 0, r2tl_remain_next := 0,
        payload_size := 12288, send_ack := true,
        h2c_send_waiting_ack := false, r2t_waiting_h2c_complete := false }
      7 0 4096).2 = .sentH2cData ∧
    ((nvme_tcp_r2t_hdr_handle 1 4096
      ((nvme_tcp_r2t_hdr_handle 1 4096
        { state := .active, datao := 0, r2tl_remain := 0, active_r2ts := 0,
          ttag := 0, ttag_r2t_next := 0, r2tl_remain_next := 0,
          payload_size := 12288, send_ack := true,
          h2c_send_waiting_ack := false, r2t_waiting_h2c_complete := false }
        7 0 4096).1) 8 4096 4096).2 = .parkedR2T ∧
     (nvme_tcp_r2t_hdr_handle 1 4096
      ((nvme_tcp_r2t_hdr_handle 1 4096
        { state := .active, datao := 0, r2tl_remain := 0, active_r2ts := 0,
          ttag := 0, ttag_r2t_next := 0, r2tl_remain_next := 0,
          payload_size := 12288, send_ack := true,
          h2c_send_waiting_ack := false, r2t_waiting_h2c_complete := false }
        7 0 4096).1) 8 4096 4096).1.active_r2ts = 2) ∧
    ((nvme_tcp_qpair_h2c_data_send_complete 4096
      ((nvme_tcp_r2t_hdr_handle 1 4096
        ((nvme_tcp_r2t_hdr_handle 1 4096
          { state := .active, datao := 0, r2tl_remain := 0, active_r2ts := 0,
            ttag := 0, ttag_r2t_next := 0, r2tl_remain_next := 0,
            payload_size := 12288, send_ack := true,
            h2c_send_waiting_ack := false, r2t_waiting_h2c_complete := false }
          7 0 4096).1) 8 4096 4096).1)).2 = .sentH2cData ∧
     (nvme_tcp_qpair_h2c_data_send_complete 4096
      ((nvme_tcp_r2t_hdr_handle 1 4096
        ((nvme_tcp_r2t_hdr_handle 1 4096
          { state := .active, datao := 0, r2tl_remain := 0, active_r2ts := 0,
            ttag := 0, ttag_r2t_next := 0, r2tl_remain_next := 0,
            payload_size := 12288, send_ack := true,
            h2c_send_waiting_ack := false, r2t_waiting_h2c_complete := false }
          7 0 4096).1) 8 4096 4096).1)).1.ttag = 8) ∧
    ((nvme_tcp_r2t_hdr_handle 1 4096
      ((nvme_tcp_r2t_hdr_handle 1 4096
        ((nvme_tcp_r2t_hdr_handle 1 4096
          { state := .active, datao := 0, r2tl_remain := 0, active_r2ts := 0,
            ttag := 0, ttag_r2t_next := 0, r2tl_remain_next := 0,
            payload_size := 12288, send_ack := true,
            h2c_send_waiting_ack := false, r2t_waiting_h2c_complete := false }
          7 0 4096).1) 8 4096 4096).1) 9 4096 4096).2 = .parkedR2T ∧
     (nvme_tcp_r2t_hdr_handle 1 4096
      ((nvme_tcp_r2t_hdr_handle 1 4096
        ((nvme_tcp_r2t_hdr_handle 1 4096
          { state := .active, datao := 0, r2tl_remain := 0, active_r2ts := 0,
            ttag := 0, ttag_r2t_next := 0, r2tl_remain_next := 0,
            payload_size := 12288, send_ack := true,
            h2c_send_waiting_ack := false, r2t_waiting_h2c_complete := false }
          7 0 4096).1) 8 4096 4096).1) 9 4096 4096).1.active_r2ts = 3 ∧
     (nvme_tcp_r2t_hdr_handle 1 4096
      ((nvme_tcp_r2t_hdr_handle 1 4096
        ((nvme_tcp_r2t_hdr_handle 1 4096
          { state := .active, datao := 0, r2tl_remain := 0, active_r2ts := 0,
            ttag := 0, ttag_r2t_next := 0, r2tl_remain_next := 0,
            payload_size := 12288, send_ack := true,
            h2c_send_waiting_ack := false, r2t_waiting_h2c_complete := false }
          7 0 4096).1) 8 4096 4096).1) 9 4096 4096).1.ttag_r2t_next = 9 ∧
     ¬ nvme_tcp_r2t_park_assert 1
      (nvme_tcp_r2t_hdr_handle 1 4096
        ((nvme_tcp_r2t_hdr_handle 1 4096
          ((nvme_tcp_r2t_hdr_handle 1 4096
            { state := .active, datao := 0, r2tl_remain := 0, active_r2ts := 0,
              ttag := 0, ttag_r2t_next := 0, r2tl_remain_next := 0,
              payload_size := 12288, send_ack := true,
              h2c_send_waiting_ack := false, r2t_waiting_h2c_complete := false }
            7 0 4096).1) 8 4096 4096).1) 9 4096 4096).1) := by
  refine ⟨rfl, ⟨rfl, rfl⟩, ⟨rfl, rfl⟩, ⟨rfl, rfl, rfl, ?_⟩⟩
  unfold nvme_tcp_r2t_park_assert
  decide

/-- C6: a received PDU whose header digest fails verification makes the qpair
send an H2C_TERM_REQ with `fes = HDGST_ERROR` and `fei = 0` and move its
receive state to QUIESCING; every outstanding request is then completed with
ABORTED_SQ_DELETION — directly by `nvme_tcp_qpair_abort_reqs` when it is not
inside an accel sequence, and from the accel completion callback (which
observes the QUIESCING state) otherwise. -/
theorem nvme_tcp_hdgst_error_handling (offending_hlen dnr : Nat)
    (outstanding : List AbortReq) (hdgst_matches : Bool)
    (hmatch : hdgst_matches = false) :
    (∃ pdu, nvme_tcp_pdu_psh_handle_hdgst true hdgst_matches offending_hlen =
        some (pdu, NvmeTcpPduRecvState.quiescing) ∧
      pdu.fes = .hdgstError ∧ pdu.fei = 0 ∧
      pdu.pdu_type = SPDK_NVME_TCP_PDU_TYPE_H2C_TERM_REQ) ∧
    (∀ p ∈ nvme_tcp_qpair_abort_reqs dnr outstanding,
      (p.1.in_progress_accel = false →
        p.2 = some ScCode.abortedSqDeletion ∧
        p.1.rsp_sc = .abortedSqDeletion ∧
        p.1.rsp_sct = SPDK_NVME_SCT_GENERIC) ∧
      (p.1.in_progress_accel = true →
        ∀ (connected : Bool) (rsp_sc : ScCode),
          nvme_tcp_req_accel_seq_complete_cb 0 NvmeTcpPduRecvState.quiescing
            connected rsp_sc = .abortedSqDeletion)) := by
  subst hmatch
  constructor
  · refine ⟨(nvme_tcp_qpair_send_h2c_term_req offending_hlen .hdgstError 0).1,
      ?_, ?_, ?_, ?_⟩
    · unfold nvme_tcp_pdu_psh_handle_hdgst
      simp [nvme_tcp_qpair_send_h2c_term_req]
    · unfold nvme_tcp_qpair_send_h2c_term_req
      rfl
    · unfold nvme_tcp_qpair_send_h2c_term_req
      simp
    · unfold nvme_tcp_qpair_send_h2c_term_req
      rfl
  · intro p hp
    unfold nvme_tcp_qpair_abort_reqs at hp
    rcases List.mem_map.mp hp with ⟨r, hr, hfr⟩
    constructor
    · intro hna
      by_cases hacc : r.in_progress_accel
      · simp [hacc] at hfr
        rw [← hfr] at hna
        simp_all
      · simp [hacc] at hfr
        rw [← hfr]
        simp
    · intro _ connected rsp_sc
      unfold nvme_tcp_req_accel_seq_complete_cb
      simp

/-- C6 witness: a corrupted header digest on a CAPSULE_RESP (offending
`hlen = 24`) with one plain and one accel-held outstanding request. -/
theorem nvme_tcp_hdgst_error_handling_witness :
    (∃ pdu, nvme_tcp_pdu_psh_handle_hdgst true false 24 =
        some (pdu, NvmeTcpPduRecvState.quiescing) ∧
      pdu.fes = .hdgstError ∧ pdu.fei = 0 ∧
      pdu.pdu_type = SPDK_NVME_TCP_PDU_TYPE_H2C_TERM_REQ) ∧
    (∀ p ∈ nvme_tcp_qpair_abort_reqs 0
        [{ in_progress_accel := false, rsp_sc := .success, rsp_sct := 0, rsp_dnr := 0 },
         { in_progress_accel := true, rsp_sc := .success, rsp_sct := 0, rsp_dnr := 0 }],
      (p.1.in_progress_accel = false → p.2 = some ScCode.abortedSqDeletion ∧
        p.1.rsp_sc = .abortedSqDeletion ∧ p.1.rsp_sct = SPDK_NVME_SCT_GENERIC) ∧
      (p.1.in_progress_accel = true →
        ∀ (connected : Bool) (rsp_sc : ScCode),
          nvme_tcp_req_accel_seq_complete_cb 0 NvmeTcpPduRecvState.quiescing
            connected rsp_sc = .abortedSqDeletion)) :=
  nvme_tcp_hdgst_error_handling 24 0
    [{ in_progress_accel := false, rsp_sc := .success, rsp_sct := 0, rsp_dnr := 0 },
     { in_progress_accel := true, rsp_sc := .success, rsp_sct := 0, rsp_dnr := 0 }]
    false rfl

/-- Helper: `nvme_tcp_c2h_data_payload_handle` never changes the stored
status code, and on a LAST_PDU|SUCCESS PDU of an acknowledged command it
fires the completion. -/
theorem c7_c2h_props (env : C7Env) (pdu : C7Pdu) (r : C7Req) :
    (nvme_tcp_c2h_data_payload_handle env pdu r).1.rsp_sc = r.rsp_sc ∧
    (pdu.flags_last_pdu = true → pdu.flags_success = true → r.send_ack = true →
      (nvme_tcp_c2h_data_payload_handle env pdu r).1.completions = r.completions + 1 ∧
      (nvme_tcp_c2h_data_payload_handle env pdu r).2 = 1) := by
  unfold nvme_tcp_c2h_data_payload_handle
  cases hsa : r.send_ack <;> split_ifs <;> simp_all

/-- Helper: under a failing data digest, with no memory domain on the request
and no `submit_accel_crc32c` in the poll group, `nvme_tcp_pdu_payload_handle`
takes the software path: it stamps COMMAND_TRANSIENT_TRANSPORT_ERROR into the
request, runs the ordinary C2H payload handling, emits nothing on the wire
and returns the receive state to AWAIT_PDU_READY. -/
theorem c7_sync_result (env : C7Env) (pdu : C7Pdu) (r : C7Req)
    (hd : pdu.ddgst_enable = true) (hm : pdu.ddgst_matches = false)
    (hmd : r.with_memory_domain = false)
    (hsub : env.has_submit_accel_crc32c = false) :
    nvme_tcp_pdu_payload_handle env pdu r =
      { req := (nvme_tcp_c2h_data_payload_handle env pdu
          { r with expected_datao := r.expected_datao + pdu.data_len,
                   rsp_sc := .commandTransientTransportError }).1,
        recv_state := .awaitPduReady,
        reaped := (nvme_tcp_c2h_data_payload_handle env pdu
          { r with expected_datao := r.expected_datao + pdu.data_len,
                   rsp_sc := .commandTransientTransportError }).2,
        term_req_sent := false, action := .handledSync } := by
  unfold nvme_tcp_pdu_payload_handle nvme_tcp_qpair_set_recv_state
  simp only [hd, hm, hmd, hsub]
  split_ifs <;> simp_all

/-- C7: when the data digest of a received C2H_DATA PDU fails CRC32C
verification on the software path, only the request the PDU belongs to is
failed — its stored status becomes COMMAND_TRANSIENT_TRANSPORT_ERROR and, on
a LAST_PDU|SUCCESS PDU of an already-acknowledged command, it completes with
that status — while no H2C_TERM_REQ is emitted, the receive state returns to
AWAIT_PDU_READY, and every other slot of the request table is untouched. -/
theorem nvme_tcp_ddgst_error_per_request (env : C7Env) (pdu : C7Pdu) (r : C7Req)
    (reqs : Nat → Option C7Req)
    (hd : pdu.ddgst_enable = true) (hm : pdu.ddgst_matches = false)
    (hmd : r.with_memory_domain = false)
    (hsub : env.has_submit_accel_crc32c = false) :
    (nvme_tcp_pdu_payload_handle env pdu r).req.rsp_sc =
      .commandTransientTransportError ∧
    (nvme_tcp_pdu_payload_handle env pdu r).term_req_sent = false ∧
    (nvme_tcp_pdu_payload_handle env pdu r).recv_state = .awaitPduReady ∧
    (nvme_tcp_pdu_payload_handle env pdu r).action = .handledSync ∧
    (pdu.flags_last_pdu = true → pdu.flags_success = true → r.send_ack = true →
      (nvme_tcp_pdu_payload_handle env pdu r).req.completions = r.completions + 1 ∧
      (nvme_tcp_pdu_payload_handle env pdu r).reaped = 1) ∧
    (∀ c, c ≠ r.cid →
      nvme_tcp_pdu_payload_handle_on_table env pdu reqs r.cid c = reqs c) := by
  have hframe : ∀ c, c ≠ r.cid →
      nvme_tcp_pdu_payload_handle_on_table env pdu reqs r.cid c = reqs c := by
    intro c hc
    unfold nvme_tcp_pdu_payload_handle_on_table
    simp [hc]
  have hs := c7_sync_result env pdu r hd hm hmd hsub
  have hp := c7_c2h_props env pdu
    { r with expected_datao := r.expected_datao + pdu.data_len,
             rsp_sc := .commandTransientTransportError }
  rw [hs]
  refine ⟨?_, rfl, rfl, rfl, ?_, hframe⟩
  · exact hp.1
  · intro h1 h2 h3
    exact hp.2 h1 h2 h3

/-- C7 witness: a 512-byte single-PDU read with LAST|SUCCESS, bad data
digest, software digest path. -/
theorem nvme_tcp_ddgst_error_per_request_witness :
    (nvme_tcp_pdu_payload_handle
      { qpair_connected := true, has_tgroup := true,
        has_submit_accel_crc32c := false, sqid := 1 }
      { data_len := 512, flags_last_pdu := true, flags_success := true,
        ddgst_enable := true, ddgst_matches := false }
      { expected_datao := 0, datao := 0, payload_size := 512,
        rsp_sc := .success, rsp_p := false, rsp_cid := 0, rsp_sqid := 0,
        cid := 1, send_ack := true, data_recv := false,
        with_memory_domain := false, is_zcopy := false,
        completions := 0 }).req.rsp_sc = .commandTransientTransportError ∧
    (nvme_tcp_pdu_payload_handle
      { qpair_connected := true, has_tgroup := true,
        has_submit_accel_crc32c := false, sqid := 1 }
      { data_len := 512, flags_last_pdu := true, flags_success := true,
        ddgst_enable := true, ddgst_matches := false }
      { expected_datao := 0, datao := 0, payload_size := 512,
        rsp_sc := .success, rsp_p := false, rsp_cid := 0, rsp_sqid := 0,
        cid := 1, send_ack := true, data_recv := false,
        with_memory_domain := false, is_zcopy := false,
        completions := 0 }).reaped = 1 := by
  have h := nvme_tcp_ddgst_error_per_request
    { qpair_connected := true, has_tgroup := true,
      has_submit_accel_crc32c := false, sqid := 1 }
    { data_len := 512, flags_last_pdu := true, flags_success := true,
      ddgst_enable := true, ddgst_matches := false }
    { expected_datao := 0, datao := 0, payload_size := 512,
      rsp_sc := .success, rsp_p := false, rsp_cid := 0, rsp_sqid := 0,
      cid := 1, send_ack := true, data_recv := false,
      with_memory_domain := false, is_zcopy := false, completions := 0 }
    (fun _ => none) rfl rfl rfl rfl
  exact ⟨h.1, (h.2.2.2.2.1 rfl rfl rfl).2⟩


/-- Helper: the H2C-waiting bit stays clear under every step. -/
theorem c1_step_h2c_false (r : C1Req) (e : C1Event)
    (h : r.h2c_send_waiting_ack = false) :
    (c1_step r e).h2c_send_waiting_ack = false := by
  cases e <;>
    unfold c1_step nvme_tcp_qpair_cmd_send_complete nvme_tcp_capsule_resp_on_req
      nvme_tcp_c2h_data_last_success_on_req nvme_tcp_req_complete_safe <;>
    split_ifs <;> simp_all <;> try (split_ifs <;> simp_all)

/-- Helper: a set `send_ack` stays set (with the H2C-waiting bit clear). -/
theorem c1_step_send_sticky (r : C1Req) (e : C1Event)
    (hh2c : r.h2c_send_waiting_ack = false) (h : r.send_ack = true) :
    (c1_step r e).send_ack = true := by
  cases e <;>
    unfold c1_step nvme_tcp_qpair_cmd_send_complete nvme_tcp_capsule_resp_on_req
      nvme_tcp_c2h_data_last_success_on_req nvme_tcp_req_complete_safe <;>
    split_ifs <;> simp_all <;> try (split_ifs <;> simp_all)

/-- Helper: the H2C-waiting bit stays clear along any trace. -/
theorem c1_run_h2c_false (t : List C1Event) :
    ∀ r : C1Req, r.h2c_send_waiting_ack = false →
      (c1_run r t).h2c_send_waiting_ack = false := by
  induction t with
  | nil => exact fun r h => h
  | cons e t ih =>
    intro r h
    exact ih (c1_step r e) (c1_step_h2c_false r e h)

